import Mathlib

/-!
Verification of the filtering-and-aggregation core of `foreign_arrivals_app.py`
(a Streamlit dashboard over two CSV tables).

Shallow embedding conventions:
* A pandas `DataFrame` of arrival rows is a `List` of records.
* `lat`/`long` floats carry no arithmetic in the program (only null checks and
  exact-value deduplication), so they are embedded as `Rat`.
* Absent/NaN cells are `Option.none`.
* `pandas.merge(..., how := left)` on `poe` is one output row per matching
  pair of input rows, with an all-null right side when nothing matches.
* `groupby(k)[v].sum()` is embedded as an association list from group keys to
  sums.  pandas presents group keys sorted; we keep first-occurrence order,
  which none of the verified properties observe (they talk about the key set
  and the per-key value only).
-/

/-- A parsed calendar date (`pd.to_datetime` result). -/
structure Date where
  year : Nat
  month : Nat
  day : Nat
deriving DecidableEq, Repr

/-- One row of `data/foreign_arrivals.csv` after date parsing. -/
structure ArrivalRecord where
  date : Date
  poe : String
  country : String
  arrivals : Nat
deriving DecidableEq, Repr

/-- One row of `data/poe.csv`. -/
structure PoeMetadata where
  poe : String
  lat : Rat
  long : Rat
deriving DecidableEq, Repr

/-- A row of the merged dataframe built by `get_data`.  `month` is `none` at
load time: the source adds the `month` column only at line 154, on the
filtered dataframe. -/
structure JoinedRecord where
  date : Date
  poe : String
  country : String
  arrivals : Nat
  year : Nat
  month : Option Nat
  lat : Option Rat
  long : Option Rat
deriving DecidableEq, Repr

/-- The joined row produced from arrival row `r` and the right-hand cells. -/
def joinCells (r : ArrivalRecord) (lat long : Option Rat) : JoinedRecord :=
  { date := r.date, poe := r.poe, country := r.country, arrivals := r.arrivals
    year := r.date.year, month := none, lat := lat, long := long }

/-- Left-merge of a single arrival row against the POE table: one output row
per matching POE row, or a single row with null `lat`/`long` when none
matches (pandas `merge(poe_df, on := poe, how := left)`). -/
def mergeRow (poeTbl : List PoeMetadata) (r : ArrivalRecord) : List JoinedRecord :=
  let ms := poeTbl.filter (fun m => m.poe == r.poe)
  if ms.isEmpty then [joinCells r none none]
  else ms.map (fun m => joinCells r (some m.lat) (some m.long))

/-- `get_data`: parse dates, derive `year`, left-merge with the POE table.
The CSV contents are the function's arguments; date parsing is the
`ArrivalRecord.date : Date` field being already structured. -/
def get_data (arrivalTbl : List ArrivalRecord) (poeTbl : List PoeMetadata) :
    List JoinedRecord :=
  arrivalTbl.flatMap (mergeRow poeTbl)

/-- The single joined row for `r` when POE keys are unique: the first matching
POE row's cells, else nulls.  Used to state the join-totality theorem. -/
def join1 (poeTbl : List PoeMetadata) (r : ArrivalRecord) : JoinedRecord :=
  match poeTbl.find? (fun m => m.poe == r.poe) with
  | none => joinCells r none none
  | some m => joinCells r (some m.lat) (some m.long)

/-- First-occurrence deduplication with an accumulator of already-seen values:
the embedding of pandas `unique()` / `drop_duplicates()`. -/
def uniqueAux {α : Type} [DecidableEq α] : List α → List α → List α
  | [], _ => []
  | x :: xs, seen => if x ∈ seen then uniqueAux xs seen else x :: uniqueAux xs (x :: seen)

/-- pandas `unique()`: distinct values in order of first occurrence. -/
def uniqueFirst {α : Type} [DecidableEq α] (l : List α) : List α :=
  uniqueAux l []

/-- The user's selection state after the two multiselects are resolved (the
"Select All" sentinel already expanded): year slider endpoints and explicit
country / POE lists. -/
structure FilterSelection where
  yearFrom : Nat
  yearTo : Nat
  countries : List String
  poes : List String
deriving DecidableEq, Repr

/-- The boolean mask of source lines 90-95 applied to a single row:
`country.isin(selected_countries) & poe.isin(selected_poes)
 & (year >= from_year) & (year <= to_year)`. -/
def rowMask (s : FilterSelection) (j : JoinedRecord) : Bool :=
  s.countries.contains j.country && s.poes.contains j.poe &&
    decide (s.yearFrom ≤ j.year) && decide (j.year ≤ s.yearTo)

/-- `filtered_data_df`: the rows of the merged dataframe passing the mask. -/
def filtered_data_df (data : List JoinedRecord) (s : FilterSelection) :
    List JoinedRecord :=
  data.filter (rowMask s)

/-- The FilteredView as the specification words it: the subsequence of rows
with `year ∈ [yearFrom, yearTo]`, `country ∈ countries` and `poe ∈ poes`.
Written from the spec, to be compared with `filtered_data_df`. -/
def FilteredViewSpec (data : List JoinedRecord) (s : FilterSelection) :
    List JoinedRecord :=
  data.filter (fun j =>
    decide (s.yearFrom ≤ j.year ∧ j.year ≤ s.yearTo ∧
      j.country ∈ s.countries ∧ j.poe ∈ s.poes))

/-- The sentinel option inserted at the head of both option lists. -/
def selectAll : String := "Select All"

/-- Source line 62: the distinct countries of the unfiltered dataset. -/
def countryOptions (data : List JoinedRecord) : List String :=
  uniqueFirst (data.map (fun j => j.country))

/-- Source line 63: the distinct POEs of the unfiltered dataset. -/
def poeOptions (data : List JoinedRecord) : List String :=
  uniqueFirst (data.map (fun j => j.poe))

/-- Source lines 84-85: a selection containing the sentinel expands to every
distinct country of the unfiltered dataset (`countries[1:]`). -/
def resolveCountries (data : List JoinedRecord) (selected : List String) :
    List String :=
  if selectAll ∈ selected then countryOptions data else selected

/-- Source lines 86-87, the POE counterpart. -/
def resolvePoes (data : List JoinedRecord) (selected : List String) :
    List String :=
  if selectAll ∈ selected then poeOptions data else selected

/-- The error kind the specification assigns to `yearFrom > yearTo`. -/
inductive FilterError where
  | invalidRange
deriving DecidableEq, Repr

/-- The filter step with an explicit error channel.  The source raises
nothing on any input — lines 90-95 are a plain boolean mask — so the result
is always `ok`. -/
def filterStep (data : List JoinedRecord) (s : FilterSelection) :
    Except FilterError (List JoinedRecord) :=
  Except.ok (filtered_data_df data s)

/-- Sum of the `arrivals` column (`[arrivals].sum()`). -/
def sumArrivals (v : List JoinedRecord) : Nat :=
  (v.map (fun j => j.arrivals)).sum

/-- `groupby(key)[arrivals].sum()` as an association list from group keys to
sums.  Keys are kept in first-occurrence order (see the header note). -/
def groupSum {κ : Type} [DecidableEq κ] (key : JoinedRecord → κ)
    (v : List JoinedRecord) : List (κ × Nat) :=
  (uniqueFirst (v.map key)).map
    (fun k => (k, sumArrivals (v.filter (fun j => decide (key j = k)))))

/-- Source line 101: `filtered_data_df[filtered_data_df[year] == to_year]`. -/
def filtered_data_for_year (v : List JoinedRecord) (toYear : Nat) :
    List JoinedRecord :=
  v.filter (fun j => j.year == toYear)

/-- Source line 104: the rows at the target year, grouped by country with
summed arrivals. -/
def summary (v : List JoinedRecord) (toYear : Nat) : List (String × Nat) :=
  groupSum (fun j => j.country) (filtered_data_for_year v toYear)

/-- The page computes the metric view at `to_year`, the upper slider bound
(source lines 98-104). -/
def pageSummary (data : List JoinedRecord) (s : FilterSelection) :
    List (String × Nat) :=
  summary (filtered_data_df data s) s.yearTo

/-- Source line 125: `groupby([year, country])[arrivals].sum()`; the
`unstack()` into a pivot is presentational and not modelled. -/
def arrivalTrend (v : List JoinedRecord) : List ((Nat × String) × Nat) :=
  groupSum (fun j => (j.year, j.country)) v

/-- Source line 133: `filtered_data_df[[lat, long]].dropna().drop_duplicates()`
— the distinct fully-present (lat, long) pairs, first occurrences kept. -/
def data_for_map (v : List JoinedRecord) : List (Rat × Rat) :=
  uniqueFirst (v.filterMap (fun j =>
    match j.lat, j.long with
    | some la, some lo => some (la, lo)
    | _, _ => none))

/-- Source line 145: `groupby([poe, country])[arrivals].sum()`. -/
def total_arrivals_by_poe (v : List JoinedRecord) :
    List ((String × String) × Nat) :=
  groupSum (fun j => (j.poe, j.country)) v

/-- Source line 154: `filtered_data_df[month] = filtered_data_df[date].dt.month`
— the month column written into the filtered view. -/
def addMonthColumn (v : List JoinedRecord) : List JoinedRecord :=
  v.map (fun j => { j with month := some j.date.month })

/-- Source line 155: `groupby([month, country])[arrivals].sum()`, over the
view as it stands after line 154. -/
def monthly_arrivals (v : List JoinedRecord) :
    List ((Option Nat × String) × Nat) :=
  groupSum (fun j => (j.month, j.country)) v

/-- Lines 90-158 as one state transition.  It returns the final values of the
`data_df` and `filtered_data_df` variables after the script body has run: the
five aggregations only read the view, and line 154 assigns the derived month
column into `filtered_data_df` (pandas boolean-mask selection yields a copy,
so `data_df` itself is untouched by that assignment). -/
def pageRun (data : List JoinedRecord) (s : FilterSelection) :
    List JoinedRecord × List JoinedRecord :=
  let fv := filtered_data_df data s
  (data, addMonthColumn fv)

/-- A record with its `month` cell cleared, used to state that line 154
changes nothing but the month column. -/
def stripMonth (j : JoinedRecord) : JoinedRecord :=
  { j with month := none }

/-- `s₂` selects at most what `s₁` does: its year range is contained in
`s₁`'s and its country and POE lists are sublanguages of `s₁`'s. -/
def Narrower (s₂ s₁ : FilterSelection) : Prop :=
  s₁.yearFrom ≤ s₂.yearFrom ∧ s₂.yearTo ≤ s₁.yearTo ∧
    s₂.countries ⊆ s₁.countries ∧ s₂.poes ⊆ s₁.poes

/-- The two arrival rows of the spec's end-to-end example, used as concrete
input by witnesses and counterexamples. -/
def sampleArrivalTbl : List ArrivalRecord :=
  [⟨⟨2020, 1, 15⟩, "KLIA", "Japan", 100⟩, ⟨⟨2021, 3, 10⟩, "KLIA", "Japan", 50⟩]

/-- The POE metadata row of the spec's end-to-end example. -/
def samplePoeTbl : List PoeMetadata :=
  [⟨"KLIA", 2.75, 101.7⟩]

/-- The merged dataframe of the example rows. -/
def sampleData : List JoinedRecord :=
  get_data sampleArrivalTbl samplePoeTbl

/-! ### Helper lemmas -/

theorem contains_eq_decide_mem {α : Type} [BEq α] [LawfulBEq α] (l : List α)
    (a : α) : l.contains a = decide (a ∈ l) := by
  induction l with
  | nil => simp
  | cons x xs ih => by_cases h : a = x <;> simp [List.contains_cons, h, ih]

theorem bool_and_reorder (a b c d : Bool) :
    (((a && b) && c) && d) = (c && (d && (a && b))) := by
  cases a <;> cases b <;> cases c <;> cases d <;> rfl

theorem mem_uniqueAux {α : Type} [DecidableEq α] (a : α) (l : List α) :
    ∀ seen : List α, a ∈ uniqueAux l seen ↔ a ∈ l ∧ a ∉ seen := by
  induction l with
  | nil => intro seen; simp [uniqueAux]
  | cons x xs ih =>
    intro seen
    by_cases hx : x ∈ seen <;> by_cases hax : a = x <;>
      simp_all [uniqueAux, ih seen, ih (x :: seen)]

theorem nodup_uniqueAux {α : Type} [DecidableEq α] (l : List α) :
    ∀ seen : List α, (uniqueAux l seen).Nodup := by
  induction l with
  | nil => intro seen; simp [uniqueAux]
  | cons x xs ih =>
    intro seen
    by_cases hx : x ∈ seen
    · simpa [uniqueAux, hx] using ih seen
    · simp only [uniqueAux, if_neg hx]
      refine List.nodup_cons.mpr ⟨?_, ih (x :: seen)⟩
      intro hmem
      rcases (mem_uniqueAux x xs (x :: seen)).mp hmem with ⟨-, hns⟩
      exact hns (List.mem_cons_self x seen)

theorem mem_uniqueFirst {α : Type} [DecidableEq α] (a : α) (l : List α) :
    a ∈ uniqueFirst l ↔ a ∈ l := by
  simp [uniqueFirst, mem_uniqueAux]

theorem lookup_map_key {α β : Type} [DecidableEq α] (f : α → β) (ks : List α)
    (c : α) :
    (ks.map (fun k => (k, f k))).lookup c = if c ∈ ks then some (f c) else none := by
  induction ks with
  | nil => simp
  | cons k t ih =>
    by_cases h : c = k
    · subst h; simp [List.lookup]
    · have hck : (c == k) = false := by simp [h]
      simp [List.lookup, ih, h, hck]

/-- Looking up a key in a `groupSum` result: some sum when a row with that
key exists, none otherwise. -/
theorem lookup_groupSum {κ : Type} [DecidableEq κ] (key : JoinedRecord → κ)
    (v : List JoinedRecord) (k : κ) :
    (groupSum key v).lookup k =
      if (v.filter (fun j => decide (key j = k))).isEmpty then none
      else some (sumArrivals (v.filter (fun j => decide (key j = k)))) := by
  have hmem : k ∈ v.map key ↔ v.filter (fun j => decide (key j = k)) ≠ [] := by
    rw [Ne, List.filter_eq_nil_iff]
    push_neg
    simp [List.mem_map]
  simp only [groupSum, lookup_map_key, mem_uniqueFirst]
  by_cases hk : k ∈ v.map key
  · rw [if_pos hk, if_neg (by simpa [List.isEmpty_iff] using hmem.mp hk)]
  · have hnil : v.filter (fun j => decide (key j = k)) = [] := by
      by_contra hne
      exact hk (hmem.mpr hne)
    rw [if_neg hk, if_pos (by simp [hnil])]

theorem mergeRow_eq_join1 (poeTbl : List PoeMetadata) (r : ArrivalRecord)
    (h : (poeTbl.map (fun m => m.poe)).Nodup) :
    mergeRow poeTbl r = [join1 poeTbl r] := by
  induction poeTbl with
  | nil => simp [mergeRow, join1]
  | cons m t ih =>
    simp only [List.map_cons, List.nodup_cons] at h
    obtain ⟨hm, ht⟩ := h
    by_cases hp : m.poe == r.poe
    · have hfilter : t.filter (fun x => x.poe == r.poe) = [] := by
        rw [List.filter_eq_nil_iff]
        intro x hx
        have hne : x.poe ≠ m.poe := fun he =>
          hm (he ▸ List.mem_map_of_mem (fun m => m.poe) hx)
        simp only [beq_iff_eq] at hp ⊢
        exact hp ▸ hne
      simp [mergeRow, join1, List.filter_cons, List.find?_cons, hp, hfilter]
    · have : mergeRow (m :: t) r = mergeRow t r := by
        simp [mergeRow, List.filter_cons, hp]
      rw [this, ih ht]
      simp [join1, List.find?_cons, hp]

/-! ### Claim theorems -/

/-- C1: for every record list and resolved selection, the filter returns
exactly the order-preserving subsequence of the input whose year lies in
`[yearFrom, yearTo]`, whose country is selected and whose POE is selected:
it equals the spec-side `FilteredViewSpec` and is a sublist of the input. -/
theorem filtered_view_refines_spec (data : List JoinedRecord)
    (s : FilterSelection) :
    filtered_data_df data s = FilteredViewSpec data s ∧
      (filtered_data_df data s).Sublist data := by
  refine ⟨List.filter_congr fun j _ => ?_, List.filter_sublist data⟩
  simp only [rowMask, contains_eq_decide_mem, Bool.decide_and]
  exact bool_and_reorder _ _ _ _

/-- C3 counterexample: at `yearFrom = 2022 > 2020 = yearTo` the filter does
not fail with `InvalidRangeError`; it returns a result, namely the empty
view. -/
theorem invalid_range_no_error_cx :
    (2020 : Nat) < 2022 ∧
      filterStep sampleData ⟨2022, 2020, ["Japan"], ["KLIA"]⟩ =
        Except.ok [] := by
  exact ⟨by decide, rfl⟩

/-- C3 (amended): with `yearFrom > yearTo` the filter raises nothing — the
source has no `InvalidRangeError` — and returns an empty FilteredView. -/
theorem invalid_range_returns_empty (data : List JoinedRecord)
    (s : FilterSelection) (h : s.yearTo < s.yearFrom) :
    filterStep data s = Except.ok [] := by
  simp only [filterStep, filtered_data_df, Except.ok.injEq]
  rw [List.filter_eq_nil_iff]
  intro j hj
  simp only [rowMask, Bool.and_eq_true, decide_eq_true_eq]
  rintro ⟨⟨-, hfrom⟩, hto⟩
  omega

/-- C3 witness: the amended statement evaluated at the spec's
`yearFrom = 2022, yearTo = 2020` example. -/
theorem invalid_range_returns_empty_witness :
    (2020 : Nat) < 2022 ∧
      filterStep sampleData ⟨2022, 2020, ["Japan", "China"], ["KLIA"]⟩ =
        Except.ok [] :=
  ⟨by decide,
   invalid_range_returns_empty sampleData ⟨2022, 2020, ["Japan", "China"], ["KLIA"]⟩
     (by decide)⟩

/-- C9: refiltering with a selection at least as wide as the one already
applied changes nothing: for `s₂` narrower than (or equal to) `s₁`,
filtering an `s₂`-filtered list with `s₁` returns it unchanged. -/
theorem filter_idempotent_on_narrower (records : List JoinedRecord)
    (s₁ s₂ : FilterSelection) (h : Narrower s₂ s₁) :
    filtered_data_df (filtered_data_df records s₂) s₁ =
      filtered_data_df records s₂ := by
  obtain ⟨hf, ht, hc, hp⟩ := h
  unfold filtered_data_df
  rw [List.filter_eq_self]
  intro j hj
  rw [List.mem_filter] at hj
  obtain ⟨-, hmask⟩ := hj
  simp only [rowMask, contains_eq_decide_mem, Bool.and_eq_true,
    decide_eq_true_eq] at hmask ⊢
  obtain ⟨⟨⟨hcj, hpj⟩, hfj⟩, htj⟩ := hmask
  exact ⟨⟨⟨hc hcj, hp hpj⟩, Nat.le_trans hf hfj⟩, Nat.le_trans htj ht⟩

/-- C9 witness: refiltering the example data with a strictly wider selection
than the one already applied is the identity. -/
theorem filter_idempotent_on_narrower_witness :
    Narrower ⟨2020, 2021, ["Japan"], ["KLIA"]⟩
        ⟨2019, 2022, ["Japan", "China"], ["KLIA", "PEN"]⟩ ∧
      filtered_data_df
          (filtered_data_df sampleData ⟨2020, 2021, ["Japan"], ["KLIA"]⟩)
          ⟨2019, 2022, ["Japan", "China"], ["KLIA", "PEN"]⟩ =
        filtered_data_df sampleData ⟨2020, 2021, ["Japan"], ["KLIA"]⟩ := by
  have hnarrow : Narrower ⟨2020, 2021, ["Japan"], ["KLIA"]⟩
      ⟨2019, 2022, ["Japan", "China"], ["KLIA", "PEN"]⟩ := by
    refine ⟨by decide, by decide, ?_, ?_⟩ <;>
      (intro a ha; simp only [List.mem_cons, List.not_mem_nil, or_false] at ha;
       simp [ha])
  exact ⟨hnarrow,
    filter_idempotent_on_narrower sampleData _ _ hnarrow⟩

/-- C10: the metric view's target year is the selection's upper bound: the
page instantiates the yearly-totals view at `yearTo`, and the rows it
aggregates are exactly the FilteredView rows whose year equals `yearTo`. -/
theorem metric_target_year_is_yearTo (data : List JoinedRecord)
    (s : FilterSelection) :
    pageSummary data s = summary (filtered_data_df data s) s.yearTo ∧
      ∀ j, (j ∈ filtered_data_for_year (filtered_data_df data s) s.yearTo ↔
        j ∈ filtered_data_df data s ∧ j.year = s.yearTo) := by
  refine ⟨rfl, fun j => ?_⟩
  simp [filtered_data_for_year, List.mem_filter]

/-- C2: with the POE table keyed uniquely on `poe` (one row per POE, as the
input format requires), the left merge yields exactly one joined row per
arrival row, position for position, carrying that row's date, poe, country
and arrivals; when no POE row matches, the row is kept with null `lat` and
`long` instead of being dropped. -/
theorem join_totality (arrivalTbl : List ArrivalRecord)
    (poeTbl : List PoeMetadata)
    (h : (poeTbl.map (fun m => m.poe)).Nodup) :
    get_data arrivalTbl poeTbl = arrivalTbl.map (join1 poeTbl) ∧
      ∀ r : ArrivalRecord,
        (join1 poeTbl r).date = r.date ∧
        (join1 poeTbl r).poe = r.poe ∧
        (join1 poeTbl r).country = r.country ∧
        (join1 poeTbl r).arrivals = r.arrivals ∧
        ((∀ m ∈ poeTbl, m.poe ≠ r.poe) →
          (join1 poeTbl r).lat = none ∧ (join1 poeTbl r).long = none) := by
  constructor
  · induction arrivalTbl with
    | nil => rfl
    | cons r t ih =>
      rw [get_data, List.flatMap_cons, mergeRow_eq_join1 poeTbl r h,
        List.map_cons]
      rw [get_data] at ih
      rw [ih]
      rfl
  · intro r
    unfold join1
    cases hf : poeTbl.find? (fun m => m.poe == r.poe) with
    | none => exact ⟨rfl, rfl, rfl, rfl, fun _ => ⟨rfl, rfl⟩⟩
    | some m =>
      refine ⟨rfl, rfl, rfl, rfl, fun hnone => ?_⟩
      have hnf : poeTbl.find? (fun m => m.poe == r.poe) = none :=
        List.find?_eq_none.mpr (fun x hx => by simpa using hnone x hx)
      rw [hnf] at hf
      exact Option.noConfusion hf

/-- C2 witness: the join-totality equation evaluated on the example tables,
whose single POE row is trivially uniquely keyed. -/
theorem join_totality_witness :
    (samplePoeTbl.map (fun m => m.poe)).Nodup ∧
      get_data sampleArrivalTbl samplePoeTbl =
        sampleArrivalTbl.map (join1 samplePoeTbl) :=
  ⟨by decide, (join_totality sampleArrivalTbl samplePoeTbl (by decide)).1⟩

/-- C4: when the "Select All" sentinel is among the selected countries and
POEs, the resolved selections are the distinct countries and POEs of the
unfiltered dataset (exactly the values occurring in it), and filtering with
the resolved selections equals filtering with those explicit full lists. -/
theorem select_all_equivalence (data : List JoinedRecord) (yf yt : Nat)
    (selC selP : List String)
    (hC : selectAll ∈ selC) (hP : selectAll ∈ selP) :
    resolveCountries data selC = countryOptions data ∧
      resolvePoes data selP = poeOptions data ∧
      (∀ c, c ∈ countryOptions data ↔ ∃ j ∈ data, j.country = c) ∧
      (∀ p, p ∈ poeOptions data ↔ ∃ j ∈ data, j.poe = p) ∧
      filtered_data_df data
          ⟨yf, yt, resolveCountries data selC, resolvePoes data selP⟩ =
        filtered_data_df data ⟨yf, yt, countryOptions data, poeOptions data⟩ := by
  refine ⟨if_pos hC, if_pos hP, ?_, ?_, ?_⟩
  · intro c
    rw [countryOptions, mem_uniqueFirst, List.mem_map]
  · intro p
    rw [poeOptions, mem_uniqueFirst, List.mem_map]
  · rw [resolveCountries, if_pos hC, resolvePoes, if_pos hP]

/-- C4 witness: the select-all expansion and filter equivalence on the
example dataset. -/
theorem select_all_equivalence_witness :
    selectAll ∈ ["Select All"] ∧
      resolveCountries sampleData ["Select All"] = countryOptions sampleData ∧
      filtered_data_df sampleData
          ⟨2020, 2021, resolveCountries sampleData ["Select All"],
            resolvePoes sampleData ["Select All"]⟩ =
        filtered_data_df sampleData
          ⟨2020, 2021, countryOptions sampleData, poeOptions sampleData⟩ :=
  ⟨by decide,
   (select_all_equivalence sampleData 2020 2021 ["Select All"] ["Select All"]
     (by decide) (by decide)).1,
   (select_all_equivalence sampleData 2020 2021 ["Select All"] ["Select All"]
     (by decide) (by decide)).2.2.2.2⟩

/-- C5 is false as stated: the rows returned by `get_data` carry no month
value at all — the month column is only written at source line 154, after
filtering — so on the example tables not every loaded row has its month
equal to its date's month component. -/
theorem month_absent_at_load_cx :
    ¬ ∀ j ∈ get_data sampleArrivalTbl samplePoeTbl,
        j.month = some j.date.month := by
  decide

/-- C5 (amended): `get_data` derives `year` as the year component of the
parsed date, but no `month`: loaded rows have an absent month cell.  The
month column is instead written on the filtered view (line 154), and after
that step every row's month equals the month component of its date. -/
theorem year_at_load_month_after_filter (arrivalTbl : List ArrivalRecord)
    (poeTbl : List PoeMetadata) (v : List JoinedRecord) (j k : JoinedRecord)
    (hj : j ∈ get_data arrivalTbl poeTbl) (hk : k ∈ addMonthColumn v) :
    j.year = j.date.year ∧ j.month = none ∧ k.month = some k.date.month := by
  refine ⟨?_, ?_, ?_⟩ <;>
    [skip; skip;
     (rcases List.mem_map.mp hk with ⟨j', hj', rfl⟩; rfl)] <;>
  · rcases List.mem_flatMap.mp hj with ⟨r, hr, hjr⟩
    simp only [mergeRow] at hjr
    split at hjr
    · rcases List.mem_singleton.mp hjr with rfl
      rfl
    · rcases List.mem_map.mp hjr with ⟨m, hm, rfl⟩
      rfl

/-- C5 witness: the amended statement at a concrete arrival row with no
matching POE metadata, before and after the month-derivation step. -/
theorem year_at_load_month_after_filter_witness :
    (⟨⟨2020, 1, 15⟩, "KLIA", "Japan", 100, 2020, none, none, none⟩ :
          JoinedRecord) ∈
        get_data [⟨⟨2020, 1, 15⟩, "KLIA", "Japan", 100⟩] [] ∧
      (⟨⟨2020, 1, 15⟩, "KLIA", "Japan", 100, 2020, some 1, none, none⟩ :
          JoinedRecord) ∈
        addMonthColumn
          [⟨⟨2020, 1, 15⟩, "KLIA", "Japan", 100, 2020, none, none, none⟩] ∧
      (⟨⟨2020, 1, 15⟩, "KLIA", "Japan", 100, 2020, none, none, none⟩ :
          JoinedRecord).year = 2020 ∧
      (⟨⟨2020, 1, 15⟩, "KLIA", "Japan", 100, 2020, none, none, none⟩ :
          JoinedRecord).month = none ∧
      (⟨⟨2020, 1, 15⟩, "KLIA", "Japan", 100, 2020, some 1, none, none⟩ :
          JoinedRecord).month =
        some (⟨2020, 1, 15⟩ : Date).month :=
  ⟨by decide, by decide, by decide,
   (year_at_load_month_after_filter [⟨⟨2020, 1, 15⟩, "KLIA", "Japan", 100⟩] []
      [⟨⟨2020, 1, 15⟩, "KLIA", "Japan", 100, 2020, none, none, none⟩]
      ⟨⟨2020, 1, 15⟩, "KLIA", "Japan", 100, 2020, none, none, none⟩
      ⟨⟨2020, 1, 15⟩, "KLIA", "Japan", 100, 2020, some 1, none, none⟩
      (by decide) (by decide)).2.1,
   (year_at_load_month_after_filter [⟨⟨2020, 1, 15⟩, "KLIA", "Japan", 100⟩] []
      [⟨⟨2020, 1, 15⟩, "KLIA", "Japan", 100, 2020, none, none, none⟩]
      ⟨⟨2020, 1, 15⟩, "KLIA", "Japan", 100, 2020, none, none, none⟩
      ⟨⟨2020, 1, 15⟩, "KLIA", "Japan", 100, 2020, some 1, none, none⟩
      (by decide) (by decide)).2.2⟩

/-- C6 is false as stated: the monthly-distribution step rewrites the
FilteredView after construction — on the example data the view at the end
of the script differs from the view as constructed (month cells were
written). -/
theorem view_mutated_by_month_step_cx :
    (pageRun sampleData ⟨2020, 2021, ["Japan"], ["KLIA"]⟩).2 ≠
      filtered_data_df sampleData ⟨2020, 2021, ["Japan"], ["KLIA"]⟩ := by
  decide

/-- C6 (amended): the filter and all aggregation views leave the input
records unchanged, and the only post-construction modification of the
FilteredView is line 154's month-column write, which preserves the record
count and order and every field other than `month`. -/
theorem page_preserves_data_and_nonmonth_fields (data : List JoinedRecord)
    (s : FilterSelection) :
    (pageRun data s).1 = data ∧
      (pageRun data s).2 = addMonthColumn (filtered_data_df data s) ∧
      (pageRun data s).2.map stripMonth =
        (filtered_data_df data s).map stripMonth ∧
      (pageRun data s).2.length = (filtered_data_df data s).length := by
  refine ⟨rfl, rfl, ?_, by simp [pageRun, addMonthColumn]⟩
  show (addMonthColumn (filtered_data_df data s)).map stripMonth =
    (filtered_data_df data s).map stripMonth
  rw [addMonthColumn, List.map_map]
  rfl

/-- C7: the yearly-totals view at target year `y` maps a country `c` to the
sum of `arrivals` over the view's rows with that year and country, and lists
`c` exactly when at least one such row exists. -/
theorem summary_reports_per_country_sums (v : List JoinedRecord) (y : Nat)
    (c : String) :
    (summary v y).lookup c =
      if (v.filter (fun j => decide (j.year = y ∧ j.country = c))).isEmpty
      then none
      else some (sumArrivals
        (v.filter (fun j => decide (j.year = y ∧ j.country = c)))) := by
  have hfil : (filtered_data_for_year v y).filter
      (fun j => decide (j.country = c)) =
      v.filter (fun j => decide (j.year = y ∧ j.country = c)) := by
    rw [filtered_data_for_year, List.filter_filter]
    apply List.filter_congr
    intro j hj
    rw [Bool.eq_iff_iff]
    simp only [Bool.and_eq_true, decide_eq_true_eq, beq_iff_eq]
    exact and_comm
  rw [summary, lookup_groupSum, hfil]

/-- C8: a resolved selection with an empty country list or an empty POE list
yields an empty FilteredView without raising any error, and on an empty
FilteredView every aggregation view returns an empty result rather than a
zero-valued one. -/
theorem empty_selection_and_empty_views (data : List JoinedRecord)
    (s : FilterSelection) (h : s.countries = [] ∨ s.poes = []) :
    filtered_data_df data s = [] ∧
      filterStep data s = Except.ok [] ∧
      (∀ y, summary ([] : List JoinedRecord) y = []) ∧
      arrivalTrend ([] : List JoinedRecord) = [] ∧
      data_for_map ([] : List JoinedRecord) = [] ∧
      total_arrivals_by_poe ([] : List JoinedRecord) = [] ∧
      monthly_arrivals (addMonthColumn ([] : List JoinedRecord)) = [] := by
  have hnil : filtered_data_df data s = [] := by
    rw [filtered_data_df, List.filter_eq_nil_iff]
    intro j hj
    rcases h with h | h <;> simp [rowMask, h]
  refine ⟨hnil, ?_, fun y => rfl, rfl, rfl, rfl, rfl⟩
  show Except.ok (filtered_data_df data s) = Except.ok []
  rw [hnil]

/-- C8 witness: deselecting every country (without "Select All") on the
example data yields the empty view and no error. -/
theorem empty_selection_and_empty_views_witness :
    (⟨2020, 2021, [], ["KLIA"]⟩ : FilterSelection).countries = [] ∧
      filtered_data_df sampleData ⟨2020, 2021, [], ["KLIA"]⟩ = [] ∧
      filterStep sampleData ⟨2020, 2021, [], ["KLIA"]⟩ = Except.ok [] :=
  ⟨rfl,
   (empty_selection_and_empty_views sampleData ⟨2020, 2021, [], ["KLIA"]⟩
     (Or.inl rfl)).1,
   (empty_selection_and_empty_views sampleData ⟨2020, 2021, [], ["KLIA"]⟩
     (Or.inl rfl)).2.1⟩
